import Mathlib

/-!
# Verification of the ADMTelegramBot dialog state machine

Shallow embedding of `src/ADMTelegramBot.py`: the conversation states, the
per-participant field map (`context.user_data`), and the individual handler
functions of the `ConversationHandler`.  Outbound messages are modelled as
lists of translation keys together with the callback data of any inline
buttons attached; the localization catalog, the Telegram transport and the
Google-Sheets record store are external collaborators, so a commit handler
receives the append outcome as a boolean and returns the rows it appended.

Python strings are modelled as Lean `String` over the ASCII fragment relevant
to the validators: `str.isdigit` is modelled as "all characters are decimal
digits" (Python additionally accepts some non-ASCII Unicode digit characters,
which are outside this model), `str.strip` trims ASCII whitespace, and
`str.title` / `str.lower` act on ASCII letters.  `float(str)` is modelled in
full on ASCII input: surrounding whitespace, an optional sign, `inf`,
`infinity` and `nan` case-insensitively, the numeric grammar with single
underscores between digits and an optional exponent, and the value correctly
rounded to the nearest IEEE-754 binary64 (ties to even, overflow to ±inf,
underflow to ±0.0); the stored `f"{amount:.2f}"` string is the correctly
rounded two-decimal rendering of that binary64 value, as CPython produces.
-/

namespace ADMBot

/-- The conversation-state constants of the source (`range(23)` at line 85). -/
inductive BotState where
  | LANG_SELECT
  | MENU
  | PARTNER_MAIN_OPTIONS
  | PARTNER_GIVE_OPTIONS
  | PARTNER_PARTNER_OPTIONS
  | PARTNER_DETAILS_NAME
  | PARTNER_DETAILS_PHONE
  | PARTNER_DETAILS_COUNTRY
  | PARTNER_PAYMENT_METHOD
  | PARTNER_AMOUNT
  | PARTNER_PAYMENT_PROOF
  | PRAYER_NAME
  | PRAYER_INPUT
  | MEMBER_NAME
  | MEMBER_PHONE
  | MEMBER_COUNTRY
  | SCHOOL_NAME
  | SCHOOL_PHONE
  | SCHOOL_COUNTRY
  | MASTER_NAME
  | MASTER_PHONE
  | MASTER_COUNTRY
  | CONTACT_ADMIN_INFO
  deriving DecidableEq

/-- `context.user_data`: a Python dict from field key to collected value,
in insertion order with unique keys. -/
abbrev Fields := List (String × String)

/-- Python dict assignment `d[k] = v`: replace the first binding of `k` in
place, or append a new binding at the end. -/
def dictSet (fields : Fields) (k v : String) : Fields :=
  match fields with
  | [] => [(k, v)]
  | (k2, v2) :: rest => if k2 = k then (k, v) :: rest else (k2, v2) :: dictSet rest k v

/-- Python `d.get(k, default)`. -/
def dictGet (fields : Fields) (k d : String) : String :=
  (fields.lookup k).getD d

/-- One outbound `reply_text` call: the translation keys whose texts make up
the message body, and the `callback_data` of any inline keyboard buttons. -/
structure Reply where
  keys : List String
  buttons : List String
  deriving DecidableEq

/-- Result of a non-committing handler: the updated `user_data`, the replies
sent, and the returned conversation state. -/
structure HandlerResult where
  fields : Fields
  replies : List Reply
  next : BotState
  deriving DecidableEq

/-- Result of a committing handler: additionally the rows appended to the
record store (empty when the append raised). -/
structure CommitResult where
  fields : Fields
  replies : List Reply
  appended : List (List String)
  next : BotState
  deriving DecidableEq

/-- The six main-menu button labels for English (`translations["buttons"]["en"]`);
`build_main_menu` uses the label itself as the `callback_data`, and `get_lang`
defaults to `"en"` for a user with no recorded language choice. -/
def btnMember : String := "👤 Member Sign-Up"

def btnPrayer : String := "🙏 Prayer Request"

def btnSchool : String := "📚 School of Discipleship"

def btnMaster : String := "🎓 Master Class"

def btnPartner : String := "💰 Give or Partner"

def btnAdmin : String := "📊 Admin Dashboard"

/-- `translations["buttons"]["en"]`, also the callback data of `build_main_menu`. -/
def buttonsEn : List String := [btnMember, btnPrayer, btnSchool, btnMaster, btnPartner, btnAdmin]

/-- `ADMIN_ID` (line 81, default value). -/
def ADMIN_ID : Nat := 7159818971

/-- The language codes offered by the `LANGUAGES` inline keyboard. -/
def langButtons : List String := ["en", "es", "fr", "pt"]

/-- Python `str.isdigit()` on a character list: non-empty and every character
a decimal digit.  (Python also accepts some non-ASCII Unicode digit
characters; inputs are modelled over the decimal-digit alphabet.) -/
def pyIsdigit (cs : List Char) : Bool :=
  !cs.isEmpty && cs.all (fun c => c.isDigit)

/-- `phone_number.startswith('+') and phone_number[1:].isdigit()`
(lines 488, 527, 544, 663). -/
def phoneOk (s : String) : Bool :=
  match s.data with
  | c :: rest => c == '+' && pyIsdigit rest
  | [] => false

/-- Python `str.strip()` (ASCII whitespace): drop leading and trailing
whitespace characters. -/
def pyStrip (s : String) : String :=
  ⟨((s.data.dropWhile Char.isWhitespace).reverse.dropWhile Char.isWhitespace).reverse⟩

/-- Python `str.lower()` (ASCII letters). -/
def pyLower (s : String) : String := ⟨s.data.map Char.toLower⟩

/-- Helper for `pyTitle`: the boolean records whether the previous character
was cased (a letter). -/
def pyTitleAux : Bool → List Char → List Char
  | _, [] => []
  | prevCased, c :: cs =>
      let c2 := if c.isAlpha then (if prevCased then c.toLower else c.toUpper) else c
      c2 :: pyTitleAux c.isAlpha cs

/-- Python `str.title()` (ASCII letters): uppercase each letter that follows a
non-letter, lowercase every other letter. -/
def pyTitle (s : String) : String := ⟨pyTitleAux false s.data⟩

/-- Does `needle` occur as a contiguous sublist of `hay`? -/
def listContainsInfix (needle : List Char) : List Char → Bool
  | [] => needle.isEmpty
  | c :: rest => needle.isPrefixOf (c :: rest) || listContainsInfix needle rest

/-- Python `needle in hay` on strings: substring containment. -/
def pyContains (needle hay : String) : Bool :=
  listContainsInfix needle.data hay.data

/-- Digit run to its numeric value. -/
def digitsVal (cs : List Char) : Nat :=
  cs.foldl (fun a c => 10 * a + (c.toNat - 48)) 0

/-- Leading sign of a Python float literal: `True` means negative. -/
def splitSign : List Char → Bool × List Char
  | '+' :: cs => (false, cs)
  | '-' :: cs => (true, cs)
  | cs => (false, cs)

/-- The exact value of a decimal literal, as a signed mantissa and a
power-of-ten exponent: the value is `num / 10 ^ exp`. -/
structure Dec where
  num : ℤ
  exp : ℕ
  deriving DecidableEq

/-- The rational value a `Dec` denotes. -/
def Dec.toRat (d : Dec) : ℚ := (d.num : ℚ) / 10 ^ d.exp

/-- Spec-side definition, from the claim's words "parses as a decimal
number": the core decimal grammar `[sign] digits [. digits]` with at least
one digit, valued exactly.  The engine itself parses with `pyFloatParse`
below; this notion is what the engine's acceptance is compared against. -/
def specDecimal (s : String) : Option Dec :=
  let p := splitSign s.data
  let intPart := p.2.takeWhile (fun c => c.isDigit)
  let rest := p.2.dropWhile (fun c => c.isDigit)
  match rest with
  | [] =>
      if intPart.isEmpty then none
      else
        let m : ℤ := (digitsVal intPart : ℤ)
        some ⟨if p.1 then -m else m, 0⟩
  | '.' :: fr =>
      if fr.all (fun c => c.isDigit) && (!intPart.isEmpty || !fr.isEmpty) then
        let m : ℤ := (digitsVal intPart * 10 ^ fr.length + digitsVal fr : ℤ)
        some ⟨if p.1 then -m else m, fr.length⟩
      else none
  | _ => none

/-- A Python float (IEEE-754 binary64) by its exact content: `nan`, a signed
infinity, or a finite value `(-1)^neg * mantissa * 2^exp2` (zero included as
`mantissa = 0`). -/
inductive PyFloat where
  | nan
  | inf (neg : Bool)
  | finite (neg : Bool) (mantissa : ℕ) (exp2 : ℤ)
  deriving DecidableEq

/-- The characters `float(str)` strips from both ends (C `isspace`, ASCII). -/
def pyIsSpace (c : Char) : Bool :=
  c = ' ' || c = '\t' || c = '\n' || c = '\r' || c = '\x0b' || c = '\x0c'

/-- Longest prefix matching `digit (_? digit)*` — digits with single
underscores strictly between digits, CPython's underscore rule for numeric
strings fed to `float` — returning the digits (underscores removed) and the
rest of the input. -/
def takeUDigitsFuel : ℕ → List Char → List Char × List Char
  | 0, cs => ([], cs)
  | _ + 1, [] => ([], [])
  | fuel + 1, c :: rest =>
      if c.isDigit then
        match rest with
        | '_' :: d :: rest2 =>
            if d.isDigit then
              let p := takeUDigitsFuel fuel (d :: rest2)
              (c :: p.1, p.2)
            else ([c], rest)
        | _ =>
            let p := takeUDigitsFuel fuel rest
            (c :: p.1, p.2)
      else ([], c :: rest)

/-- `takeUDigitsFuel` with enough fuel (every step consumes at least one
character, so the input's length suffices and the fuel-exhausted case is
unreachable). -/
def takeUDigits (cs : List Char) : List Char × List Char :=
  takeUDigitsFuel cs.length cs

/-- The optional exponent tail `[eE] [sign] digits` of the float grammar,
with the end-of-input check; on success adds the exponent to the running
power of ten `p` of the mantissa `mant`. -/
def parseExpPart (cs : List Char) (mant : ℕ) (p : ℤ) : Option (ℕ × ℤ) :=
  match cs with
  | [] => some (mant, p)
  | e :: rest =>
      if e = 'e' || e = 'E' then
        let sr := splitSign rest
        let ed := takeUDigits sr.2
        if ed.1.isEmpty || !ed.2.isEmpty then none
        else some (mant, p + (if sr.1 then -(digitsVal ed.1 : ℤ) else (digitsVal ed.1 : ℤ)))
      else none

/-- The numeric alternative of the float grammar:
`(digits [. digits?] | . digits) [exponent]`, returning the decimal mantissa
as an integer together with its power-of-ten exponent. -/
def parseNumber (cs : List Char) : Option (ℕ × ℤ) :=
  let ip := takeUDigits cs
  match ip.2 with
  | '.' :: rest2 =>
      let fp := takeUDigits rest2
      if ip.1.isEmpty && fp.1.isEmpty then none
      else parseExpPart fp.2 (digitsVal (ip.1 ++ fp.1)) (-(fp.1.length : ℤ))
  | other =>
      if ip.1.isEmpty then none
      else parseExpPart other (digitsVal ip.1) 0

/-- Number of binary digits of `n` (`0` for `0`), with structural fuel;
`fuel ≥ n` suffices since the argument halves each step. -/
def bitLenFuel : ℕ → ℕ → ℕ
  | 0, _ => 0
  | _ + 1, 0 => 0
  | fuel + 1, n + 1 => bitLenFuel fuel ((n + 1) / 2) + 1

/-- Number of binary digits of `n`. -/
def bitLen (n : ℕ) : ℕ := bitLenFuel n n

/-- Is `2 ^ z ≤ n / d` (exact comparison, `n, d > 0`)? -/
def geTwoPow (n d : ℕ) (z : ℤ) : Bool :=
  if 0 ≤ z then decide (d * 2 ^ z.toNat ≤ n) else decide (d ≤ n * 2 ^ (-z).toNat)

/-- `⌊log₂ (n / d)⌋` for `n, d > 0`: it is `bitLen n - bitLen d` up to one,
settled by a direct comparison. -/
def floorLog2 (n d : ℕ) : ℤ :=
  let z : ℤ := (bitLen n : ℤ) - (bitLen d : ℤ)
  if geTwoPow n d z then z else z - 1

/-- Nearest integer to `n / d` (`d > 0`), ties to even: the IEEE-754
round-to-nearest-even rule, also used by Python's float formatting. -/
def roundHalfEvenNat (n d : ℕ) : ℕ :=
  let q := n / d
  let r := n % d
  if 2 * r < d then q
  else if d < 2 * r then q + 1
  else if q % 2 = 0 then q else q + 1

/-- Round the positive rational `n / d` to the nearest binary64 value
(ties to even), returned as `mantissa * 2 ^ exp2`; `none` on overflow to
infinity.  Values below the normal range round at the fixed subnormal scale
`2 ^ (-1074)`. -/
def ratToDoubleParts (n d : ℕ) : Option (ℕ × ℤ) :=
  let k := floorLog2 n d
  if 1024 ≤ k then none
  else
    let s : ℤ := if k < -1022 then -1074 else k - 52
    let m := if 0 ≤ s then roundHalfEvenNat n (d * 2 ^ s.toNat)
             else roundHalfEvenNat (n * 2 ^ (-s).toNat) d
    if m ≤ 2 ^ 53 - 1 then some (m, s)
    else if s + 53 < 1024 then some (2 ^ 52, s + 1)
    else none

/-- The Python float for the exact decimal `(-1)^neg * a * 10 ^ p10`:
the nearest binary64, with overflow giving the signed infinity (CPython's
`float(str)` returns ±inf on overflow; it raises no error). -/
def mkDouble (neg : Bool) (a : ℕ) (p10 : ℤ) : PyFloat :=
  if a = 0 then .finite neg 0 0
  else if 0 ≤ p10 then
    match ratToDoubleParts (a * 10 ^ p10.toNat) 1 with
    | some me => .finite neg me.1 me.2
    | none => .inf neg
  else
    match ratToDoubleParts a (10 ^ (-p10).toNat) with
    | some me => .finite neg me.1 me.2
    | none => .inf neg

/-- `float(amount_text)` (line 719), on ASCII input: strip whitespace, take
an optional sign, then `inf`/`infinity`/`nan` case-insensitively or the
numeric grammar, the numeric value rounded to the nearest binary64 (overflow
to ±inf, underflow to ±0.0).  `none` is CPython's `ValueError`, the one
exception the handler catches. -/
def pyFloatParse (s : String) : Option PyFloat :=
  let stripped :=
    ((s.data.dropWhile pyIsSpace).reverse.dropWhile pyIsSpace).reverse
  let sg := splitSign stripped
  let low := sg.2.map Char.toLower
  if low = ['i', 'n', 'f'] || low = ['i', 'n', 'f', 'i', 'n', 'i', 't', 'y'] then
    some (.inf sg.1)
  else if low = ['n', 'a', 'n'] then
    some .nan
  else
    match parseNumber sg.2 with
    | some mp => some (mkDouble sg.1 mp.1 mp.2)
    | none => none

/-- The comparison `amount <= 0` (line 720) on a Python float: false for
`nan` (every comparison with nan is false), the sign for infinities, and for
finite values true exactly for zeros and negatives. -/
def pyFloatNonpos : PyFloat → Bool
  | .nan => false
  | .inf neg => neg
  | .finite neg m _ => m == 0 || neg

/-- The exact rational value of a finite Python float. -/
def pyFiniteVal (neg : Bool) (m : ℕ) (e2 : ℤ) : ℚ :=
  (if neg then -1 else 1) * (m : ℚ) * (2 : ℚ) ^ e2

/-- Two-digit rendering of `n < 100`. -/
def natTwoDigits (n : Nat) : String :=
  (if n < 10 then "0" else "") ++ toString n

/-- The f-string `f"{amount:.2f}"` (line 722): CPython renders the binary64
value correctly rounded to two decimals, ties to even (`"nan"` and `"inf"`
for the special values). -/
def pyFormatDot2 : PyFloat → String
  | .nan => "nan"
  | .inf neg => if neg then "-inf" else "inf"
  | .finite neg m e2 =>
      let h : ℕ :=
        if 0 ≤ e2 then m * 2 ^ e2.toNat * 100
        else roundHalfEvenNat (m * 100) (2 ^ (-e2).toNat)
      (if neg then "-" else "") ++ toString (h / 100) ++ "." ++ natTwoDigits (h % 100)

/-- `ask_input` (lines 453-460): store the message text under `key` when the
update carries a non-empty text, then send the next prompt and advance.
There is no emptiness or whitespace check beyond Python truthiness. -/
def ask_input (fields : Fields) (msgText : Option String) (key promptKey : String)
    (nextState : BotState) : HandlerResult :=
  let fields2 :=
    match msgText with
    | some t => if t = "" then fields else dictSet fields key t
    | none => fields
  { fields := fields2, replies := [⟨[promptKey], []⟩], next := nextState }

/-- `save_to_sheet` (lines 463-479): build
`[user_id] + [user_data.get(k, "") for k in keys] + [timestamp]`, attempt the
append (`appendOk` is the outcome), send the success or generic-error message,
then in both cases send the menu, clear `user_data` and return `MENU`. -/
def save_to_sheet (fields : Fields) (uid ts : String) (keys : List String)
    (successKey : String) (appendOk : Bool) : CommitResult :=
  let data := [uid] ++ keys.map (fun k => dictGet fields k "") ++ [ts]
  { fields := []
    replies := (if appendOk then [⟨[successKey], []⟩] else [⟨["error_general"], []⟩]) ++
      [⟨["menu"], buttonsEn⟩]
    appended := if appendOk then [data] else []
    next := .MENU }

/-- `start` (lines 333-343), also installed as the fallback for unroutable
text/media input (lines 797-801): optionally show the daily message, send the
language prompt, return `LANG_SELECT`.  It does not touch `user_data`. -/
def start (dailyMsg : String) (fields : Fields) : HandlerResult :=
  { fields := fields
    replies := (if dailyMsg = "" then [] else [⟨[dailyMsg], []⟩]) ++ [⟨["lang_prompt"], langButtons⟩]
    next := .LANG_SELECT }

/-- `show_partner_main_options` (lines 556-577). -/
def show_partner_main_options (fields : Fields) : HandlerResult :=
  { fields := fields
    replies := [⟨["partner_main_options_prompt"],
      ["SHOW_GIVE_OPTIONS", "SHOW_PARTNER_OPTIONS", "BACK_TO_MENU"]⟩]
    next := .PARTNER_MAIN_OPTIONS }

/-- `handle_menu` (lines 375-450): dispatch on the callback data against the
user's language's button labels (modelled for the default language).  The
admin branch replies with stats built from record-store counts (external),
modelled as the single key `"admin_stats"`.  No branch touches `user_data`. -/
def handle_menu (fields : Fields) (data : String) (fromUser : Nat) : HandlerResult :=
  if data = btnMember then
    { fields := fields, replies := [⟨["prompt_name"], []⟩], next := .MEMBER_NAME }
  else if data = btnPrayer then
    { fields := fields, replies := [⟨["prompt_name"], []⟩], next := .PRAYER_NAME }
  else if data = btnSchool then
    { fields := fields
      replies := [⟨["scripture_discipleship"], []⟩, ⟨["prompt_name"], []⟩]
      next := .SCHOOL_NAME }
  else if data = btnMaster then
    { fields := fields
      replies := [⟨["scripture_masterclass"], []⟩, ⟨["prompt_name"], []⟩]
      next := .MASTER_NAME }
  else if data = btnPartner then
    show_partner_main_options fields
  else if data = btnAdmin then
    if fromUser ≠ ADMIN_ID then
      { fields := fields, replies := [⟨["access_denied"], []⟩], next := .MENU }
    else
      { fields := fields, replies := [⟨["admin_stats"], []⟩], next := .MENU }
  else if data = "BACK_TO_MENU" then
    { fields := fields, replies := [⟨["menu"], buttonsEn⟩], next := .MENU }
  else
    { fields := fields, replies := [⟨["unknown_option"], []⟩], next := .MENU }

/-- `set_member_name` (lines 482-483). -/
def set_member_name (fields : Fields) (text : String) : HandlerResult :=
  ask_input fields (some text) "member_name" "prompt_phone" .MEMBER_PHONE

/-- `set_member_phone` (lines 485-492). -/
def set_member_phone (fields : Fields) (text : String) : HandlerResult :=
  if !phoneOk text then
    { fields := fields, replies := [⟨["invalid_input", "prompt_phone"], []⟩], next := .MEMBER_PHONE }
  else
    ask_input fields (some text) "member_phone" "prompt_country" .MEMBER_COUNTRY

/-- `set_member_country` (lines 494-497): store the raw message text (no
normalization), then commit via `save_to_sheet`. -/
def set_member_country (fields : Fields) (text uid ts : String) (appendOk : Bool) : CommitResult :=
  save_to_sheet (dictSet fields "member_country" text) uid ts
    ["member_name", "member_phone", "member_country"] "member_signup_success" appendOk

/-- `set_prayer_name` (lines 500-502). -/
def set_prayer_name (fields : Fields) (text : String) : HandlerResult :=
  ask_input fields (some text) "prayer_name" "prompt_prayer" .PRAYER_INPUT

/-- `save_prayer_request` (lines 504-519): commit
`[user_id, user_data.get("prayer_name", "N/A"), prayer_text, timestamp]`,
send the thank-you or generic-error message, then the menu, clear `user_data`
and return `MENU`. -/
def save_prayer_request (fields : Fields) (text uid ts : String) (appendOk : Bool) : CommitResult :=
  let row := [uid, dictGet fields "prayer_name" "N/A", text, ts]
  { fields := []
    replies := (if appendOk then [⟨["prayer_thankyou"], []⟩] else [⟨["error_general"], []⟩]) ++
      [⟨["menu"], buttonsEn⟩]
    appended := if appendOk then [row] else []
    next := .MENU }

/-- `set_school_name` (lines 522-523). -/
def set_school_name (fields : Fields) (text : String) : HandlerResult :=
  ask_input fields (some text) "school_name" "prompt_phone" .SCHOOL_PHONE

/-- `set_school_phone` (lines 525-531). -/
def set_school_phone (fields : Fields) (text : String) : HandlerResult :=
  if !phoneOk text then
    { fields := fields, replies := [⟨["invalid_input", "prompt_phone"], []⟩], next := .SCHOOL_PHONE }
  else
    ask_input fields (some text) "school_phone" "prompt_country" .SCHOOL_COUNTRY

/-- `set_school_country` (lines 533-536): raw text, no normalization. -/
def set_school_country (fields : Fields) (text uid ts : String) (appendOk : Bool) : CommitResult :=
  save_to_sheet (dictSet fields "school_country" text) uid ts
    ["school_name", "school_phone", "school_country"] "school_signup_success" appendOk

/-- `set_master_name` (lines 539-540). -/
def set_master_name (fields : Fields) (text : String) : HandlerResult :=
  ask_input fields (some text) "master_name" "prompt_phone" .MASTER_PHONE

/-- `set_master_phone` (lines 542-548). -/
def set_master_phone (fields : Fields) (text : String) : HandlerResult :=
  if !phoneOk text then
    { fields := fields, replies := [⟨["invalid_input", "prompt_phone"], []⟩], next := .MASTER_PHONE }
  else
    ask_input fields (some text) "master_phone" "prompt_country" .MASTER_COUNTRY

/-- `set_master_country` (lines 550-553): raw text, no normalization. -/
def set_master_country (fields : Fields) (text uid ts : String) (appendOk : Bool) : CommitResult :=
  save_to_sheet (dictSet fields "master_country" text) uid ts
    ["master_name", "master_phone", "master_country"] "masterclass_signup_success" appendOk

/-- `set_partner_details_name` (lines 656-658). -/
def set_partner_details_name (fields : Fields) (text : String) : HandlerResult :=
  ask_input fields (some text) "partner_name" "prompt_phone" .PARTNER_DETAILS_PHONE

/-- `set_partner_details_phone` (lines 660-667). -/
def set_partner_details_phone (fields : Fields) (text : String) : HandlerResult :=
  if !phoneOk text then
    { fields := fields
      replies := [⟨["invalid_input", "prompt_phone"], []⟩]
      next := .PARTNER_DETAILS_PHONE }
  else
    ask_input fields (some text) "partner_phone" "prompt_country" .PARTNER_DETAILS_COUNTRY

/-- `set_partner_details_country` (lines 669-692): store
`text.strip().title()` under `partner_country`; if the lowercased value
contains `"south africa"` send the domestic payment instructions, otherwise
the international instructions plus a Contact Admin button; then prompt for
the amount and return `PARTNER_AMOUNT`. -/
def set_partner_details_country (fields : Fields) (text : String) : HandlerResult :=
  let country := pyTitle (pyStrip text)
  let fields2 := dictSet fields "partner_country" country
  let paymentReply : Reply :=
    if pyContains "south africa" (pyLower country) then
      ⟨["payment_sa"], ["BACK_TO_PARTNER_CATEGORIES"]⟩
    else
      ⟨["payment_international"], ["CONTACT_ADMIN", "BACK_TO_PARTNER_CATEGORIES"]⟩
  { fields := fields2
    replies := [paymentReply, ⟨["prompt_amount"], []⟩]
    next := .PARTNER_AMOUNT }

/-- `set_partner_amount` (lines 714-727): `float(amount_text)`; a
`ValueError` — an unparsable string, or raised explicitly when
`amount <= 0` — is caught and re-prompts with the invalid-input notice,
state and fields unchanged; otherwise the two-decimal rendering of the float
is stored and the flow advances to the payment-proof step.  (`float(str)`
overflows to ±inf without raising, so `except ValueError` is the only
failure path.) -/
def set_partner_amount (fields : Fields) (text : String) : HandlerResult :=
  match pyFloatParse text with
  | some f =>
      if pyFloatNonpos f then
        { fields := fields
          replies := [⟨["invalid_input", "prompt_amount"], []⟩]
          next := .PARTNER_AMOUNT }
      else
        { fields := dictSet fields "partner_amount" (pyFormatDot2 f)
          replies := [⟨["prompt_payment_proof"], []⟩]
          next := .PARTNER_PAYMENT_PROOF }
  | none =>
      { fields := fields
        replies := [⟨["invalid_input", "prompt_amount"], []⟩]
        next := .PARTNER_AMOUNT }

/-- A participant's session as the spec's §4.3 session store sees it: the
collected fields and the conversation state.  The flow in progress is the
state itself (a non-menu state), and the giving category is the
`"partner_type"` field; both live inside these two components. -/
structure Session where
  fields : Fields
  state : BotState
  deriving DecidableEq

/-- The reset performed after every commit (lines 477-479, 518-519):
`context.user_data.clear()` and return to `MENU`. -/
def resetSession (_s : Session) : Session :=
  { fields := [], state := .MENU }

/-! ## Helper lemmas -/

theorem dictSet_lookup_same (fields : Fields) (k v : String) :
    (dictSet fields k v).lookup k = some v := by
  induction fields with
  | nil => simp [dictSet, List.lookup]
  | cons p rest ih =>
      obtain ⟨k2, v2⟩ := p
      by_cases h : k2 = k
      · subst h
        simp [dictSet, List.lookup]
      · simp only [dictSet, if_neg h, List.lookup]
        have hb : (k == k2) = false := by
          simp [beq_iff_eq]
          exact fun e => h e.symm
        rw [hb]
        exact ih

theorem dictSet_lookup_other (fields : Fields) (k v k2 : String) (h : k2 ≠ k) :
    (dictSet fields k v).lookup k2 = fields.lookup k2 := by
  have hb : (k2 == k) = false := by
    simp [beq_iff_eq]
    exact h
  induction fields with
  | nil => simp [dictSet, List.lookup, hb]
  | cons p rest ih =>
      obtain ⟨k3, v3⟩ := p
      by_cases h3 : k3 = k
      · subst h3
        simp [dictSet, List.lookup, hb]
      · simp only [dictSet, if_neg h3, List.lookup]
        rw [ih]

theorem getLast?_append_singleton {α : Type} (l : List α) (a : α) :
    (l ++ [a]).getLast? = some a := by
  rw [List.getLast?_append_cons]
  rfl

/-- The spec-side decimal value is positive exactly when its mantissa is,
since the denominator `10 ^ exp` is positive. -/
theorem Dec.pos_iff (d : Dec) : 0 < d.toRat ↔ 0 < d.num := by
  rw [Dec.toRat, lt_div_iff₀ (by positivity), zero_mul]
  exact Int.cast_pos

/-- The boolean `amount <= 0` test on a finite float is false exactly when
the float's value is strictly positive. -/
theorem pyFloatNonpos_finite_iff (neg : Bool) (m : ℕ) (e2 : ℤ) :
    pyFloatNonpos (PyFloat.finite neg m e2) = false ↔ 0 < pyFiniteVal neg m e2 := by
  have h2 : (0 : ℚ) < (2 : ℚ) ^ e2 := by positivity
  cases neg
  · simp only [pyFloatNonpos, Bool.or_false, beq_eq_false_iff_ne, ne_eq, pyFiniteVal,
      Bool.false_eq_true, if_false, one_mul]
    constructor
    · intro hm
      exact mul_pos (by exact_mod_cast Nat.pos_of_ne_zero hm) h2
    · intro hv hm
      rw [hm] at hv
      simp at hv
  · simp only [pyFloatNonpos, Bool.or_true, pyFiniteVal, if_true]
    constructor
    · intro h
      exact absurd h (by simp)
    · intro hv
      exfalso
      have hnn : (0 : ℚ) ≤ (m : ℚ) * (2 : ℚ) ^ e2 := by positivity
      nlinarith

/-- The claim's phone rule, stated from the spec's words: the string is `+`
followed by one or more decimal digits and nothing else. -/
def specPhone (s : String) : Prop :=
  ∃ ds : List Char, s.data = '+' :: ds ∧ ds ≠ [] ∧ ∀ c ∈ ds, c.isDigit = true

theorem pyIsdigit_iff (cs : List Char) :
    pyIsdigit cs = true ↔ cs ≠ [] ∧ ∀ c ∈ cs, c.isDigit = true := by
  cases cs with
  | nil => simp [pyIsdigit]
  | cons c rest => simp [pyIsdigit, List.all_eq_true]

theorem phoneOk_iff (s : String) : phoneOk s = true ↔ specPhone s := by
  rcases hd : s.data with - | ⟨c, rest⟩
  · constructor
    · intro h
      simp [phoneOk, hd] at h
    · rintro ⟨ds, hds, -, -⟩
      rw [hd] at hds
      exact absurd hds (by simp)
  · constructor
    · intro h
      simp only [phoneOk, hd, Bool.and_eq_true, beq_iff_eq] at h
      obtain ⟨hc, hrest⟩ := h
      obtain ⟨hne, hdig⟩ := (pyIsdigit_iff rest).mp hrest
      exact ⟨rest, by rw [hd, hc], hne, hdig⟩
    · rintro ⟨ds, hds, hne, hdig⟩
      rw [hd] at hds
      injection hds with hc hrest
      subst hc
      subst hrest
      simp only [phoneOk, hd, Bool.and_eq_true, beq_iff_eq]
      exact ⟨trivial, (pyIsdigit_iff _).mpr ⟨hne, hdig⟩⟩

/-! ## Claim theorems -/

/-- C1: for every completed flow, if the record-store append at commit fails,
the engine emits the generic error message and still resets the session
exactly as on success: the collected fields are cleared, no partial record
remains in the session or in the store, and the state returns to `MENU`.
Covers both commit paths: `save_to_sheet` (member, school, master class,
partner flows) and `save_prayer_request`. -/
theorem c1_commit_failure_resets_like_success (fields : Fields)
    (uid ts ptext okKey : String) (keys : List String) :
    (save_to_sheet fields uid ts keys okKey false).fields = [] ∧
    (save_to_sheet fields uid ts keys okKey false).next = BotState.MENU ∧
    (save_to_sheet fields uid ts keys okKey false).appended = [] ∧
    (save_to_sheet fields uid ts keys okKey false).replies =
      [⟨["error_general"], []⟩, ⟨["menu"], buttonsEn⟩] ∧
    (save_to_sheet fields uid ts keys okKey false).fields =
      (save_to_sheet fields uid ts keys okKey true).fields ∧
    (save_to_sheet fields uid ts keys okKey false).next =
      (save_to_sheet fields uid ts keys okKey true).next ∧
    (save_prayer_request fields ptext uid ts false).fields = [] ∧
    (save_prayer_request fields ptext uid ts false).next = BotState.MENU ∧
    (save_prayer_request fields ptext uid ts false).appended = [] ∧
    (save_prayer_request fields ptext uid ts false).replies =
      [⟨["error_general"], []⟩, ⟨["menu"], buttonsEn⟩] ∧
    (save_prayer_request fields ptext uid ts false).fields =
      (save_prayer_request fields ptext uid ts true).fields ∧
    (save_prayer_request fields ptext uid ts false).next =
      (save_prayer_request fields ptext uid ts true).next :=
  ⟨rfl, rfl, rfl, rfl, rfl, rfl, rfl, rfl, rfl, rfl, rfl, rfl⟩

/-- C4 counterexample: processing a restart event does not clear the collected
fields.  With `member_name` already collected, `start` (the `/start` handler
and the fallback target for unroutable input) re-enters `LANG_SELECT` but
leaves the session's field map untouched and non-empty, contradicting the
claim that the restart clears the collected fields. -/
theorem c4_restart_no_clear_counterexample :
    (start "" [("member_name", "Grace")]).next = BotState.LANG_SELECT ∧
    (start "" [("member_name", "Grace")]).fields = [("member_name", "Grace")] ∧
    (start "" [("member_name", "Grace")]).fields ≠ [] :=
  ⟨rfl, rfl, by decide⟩

/-- C4 amended: processing a restart event re-enters the `LANG_SELECT`
(language-selection) state but does not reset the session: the collected
fields are preserved unchanged, and are only cleared later by a commit. -/
theorem c4_restart_reenters_lang_select (dailyMsg : String) (fields : Fields) :
    (start dailyMsg fields).next = BotState.LANG_SELECT ∧
    (start dailyMsg fields).fields = fields :=
  ⟨rfl, rfl⟩

/-- C5 counterexample: dispatching a menu selection into a new flow does not
clear the prior session's fields.  With a stale `partner_type` field left from
an abandoned partner flow, selecting Member Sign-Up enters `MEMBER_NAME` with
the field map still non-empty, contradicting the claim that the field map is
empty at the first step of the new flow. -/
theorem c5_menu_dispatch_counterexample :
    (handle_menu [("partner_type", "GIVE_TITHE")] btnMember 42).next =
      BotState.MEMBER_NAME ∧
    (handle_menu [("partner_type", "GIVE_TITHE")] btnMember 42).fields =
      [("partner_type", "GIVE_TITHE")] ∧
    (handle_menu [("partner_type", "GIVE_TITHE")] btnMember 42).fields ≠ [] :=
  ⟨by decide, by decide, by decide⟩

/-- C5 amended: dispatching a menu selection never modifies the session's
collected fields (no branch of `handle_menu` touches `user_data`), so at the
first step of a flow the field map equals whatever it was at the menu — it is
empty only when the preceding commit cleared it, not because of the dispatch.
The five flow buttons dispatch to the flows' first states. -/
theorem c5_menu_dispatch_preserves_fields (fields : Fields) (data : String) (uid : Nat) :
    (handle_menu fields data uid).fields = fields ∧
    (handle_menu fields btnMember uid).next = BotState.MEMBER_NAME ∧
    (handle_menu fields btnPrayer uid).next = BotState.PRAYER_NAME ∧
    (handle_menu fields btnSchool uid).next = BotState.SCHOOL_NAME ∧
    (handle_menu fields btnMaster uid).next = BotState.MASTER_NAME ∧
    (handle_menu fields btnPartner uid).next = BotState.PARTNER_MAIN_OPTIONS := by
  refine ⟨?_, ?_, ?_, ?_, ?_, ?_⟩
  · unfold handle_menu show_partner_main_options
    split_ifs <;> rfl
  all_goals simp [handle_menu, show_partner_main_options, btnMember, btnPrayer,
    btnSchool, btnMaster, btnPartner]

/-- C9: the session reset is idempotent — resetting twice yields the same
observable session as resetting once: fields empty and state `MENU` (hence no
flow in progress, a flow being identified by a non-menu state, and no giving
category, the `partner_type` entry of the cleared field map). -/
theorem c9_reset_idempotent (s : Session) :
    resetSession (resetSession s) = resetSession s ∧
    (resetSession s).fields = [] ∧
    (resetSession s).state = BotState.MENU :=
  ⟨rfl, rfl, rfl⟩

/-- C2: a string submitted in a phone-collection state is accepted, and stored
unchanged under the step's key, exactly when it starts with `+` followed by
one or more decimal digits and contains nothing else; on any other input the
engine re-emits the same prompt with the invalid-input notice, the state is
unchanged and no field is stored.  Covers the member and partner phone
handlers (the school and master-class handlers repeat the same code). -/
theorem c2_phone_validation (s : String) (fields : Fields) :
    (phoneOk s = true ↔ specPhone s)
  ∧ (specPhone s →
      set_member_phone fields s =
        ⟨dictSet fields "member_phone" s, [⟨["prompt_country"], []⟩],
          BotState.MEMBER_COUNTRY⟩ ∧
      set_partner_details_phone fields s =
        ⟨dictSet fields "partner_phone" s, [⟨["prompt_country"], []⟩],
          BotState.PARTNER_DETAILS_COUNTRY⟩)
  ∧ (¬ specPhone s →
      set_member_phone fields s =
        ⟨fields, [⟨["invalid_input", "prompt_phone"], []⟩], BotState.MEMBER_PHONE⟩ ∧
      set_partner_details_phone fields s =
        ⟨fields, [⟨["invalid_input", "prompt_phone"], []⟩],
          BotState.PARTNER_DETAILS_PHONE⟩) := by
  refine ⟨phoneOk_iff s, ?_, ?_⟩
  · intro hs
    have hok : phoneOk s = true := (phoneOk_iff s).mpr hs
    have hne : ¬ s = "" := by
      rcases hs with ⟨ds, hds, -, -⟩
      intro e
      rw [e] at hds
      exact absurd hds (by simp)
    constructor <;>
      simp [set_member_phone, set_partner_details_phone, ask_input, hok, hne]
  · intro hs
    have hok : phoneOk s = false := by
      cases h2 : phoneOk s
      · rfl
      · exact absurd ((phoneOk_iff s).mp h2) hs
    constructor <;> simp [set_member_phone, set_partner_details_phone, hok]

/-- C2 witness: the theorem applied at the accepted input `"+123"` and at the
rejected input `"12345"` (no leading `+`). -/
theorem c2_phone_validation_witness :
    set_member_phone [] "+123" =
      ⟨[("member_phone", "+123")], [⟨["prompt_country"], []⟩],
        BotState.MEMBER_COUNTRY⟩ ∧
    set_member_phone [] "12345" =
      ⟨[], [⟨["invalid_input", "prompt_phone"], []⟩], BotState.MEMBER_PHONE⟩ := by
  constructor
  · exact ((c2_phone_validation "+123" []).2.1
      ⟨['1', '2', '3'], rfl, by decide, by decide⟩).1
  · refine ((c2_phone_validation "12345" []).2.2 ?_).1
    rintro ⟨ds, hds, -, -⟩
    have h1 : ("12345".data).head? = some '+' := by rw [hds]; rfl
    exact absurd h1 (by decide)

/-- C3 counterexample: the input `"nan"` does not parse as a decimal number
at all (so certainly not as one strictly greater than zero), yet the engine
accepts it: `float("nan")` succeeds and `nan <= 0` is false, so the amount
is stored as `"nan"` and the flow advances to the payment-proof step —
contradicting the claimed acceptance condition. -/
theorem c3_amount_nan_counterexample :
    (¬ ∃ d : Dec, specDecimal "nan" = some d ∧ 0 < d.toRat) ∧
    pyFloatParse "nan" = some PyFloat.nan ∧
    (set_partner_amount [] "nan").next = BotState.PARTNER_PAYMENT_PROOF ∧
    (set_partner_amount [] "nan").fields = [("partner_amount", "nan")] ∧
    (set_partner_amount [] "nan").replies = [⟨["prompt_payment_proof"], []⟩] := by
  refine ⟨?_, by decide, by decide, by decide, by decide⟩
  rintro ⟨d, hd, -⟩
  rw [show specDecimal "nan" = none from rfl] at hd
  exact absurd hd (by simp)

/-- C3 amended: a string submitted in the amount-collection state is accepted
exactly when Python's `float` parses it (beyond plain decimal numbers this
admits surrounding whitespace, exponent notation, single underscores between
digits, and the specials `nan`, `inf` and `infinity`) and the parsed value
fails the `amount <= 0` test — for finite values exactly the strictly
positive ones (positives that underflow to `0.0` are rejected), plus `nan`
and `+inf`, overflowing positive numbers included.  On every other input the
engine re-emits the amount prompt with the invalid-input notice and the
state and stored fields are unchanged. -/
theorem c3_amount_float_validation (s : String) (fields : Fields) :
    ((set_partner_amount fields s).next = BotState.PARTNER_PAYMENT_PROOF ↔
      ∃ f : PyFloat, pyFloatParse s = some f ∧ pyFloatNonpos f = false)
  ∧ ((¬ ∃ f : PyFloat, pyFloatParse s = some f ∧ pyFloatNonpos f = false) →
      set_partner_amount fields s =
        ⟨fields, [⟨["invalid_input", "prompt_amount"], []⟩],
          BotState.PARTNER_AMOUNT⟩)
  ∧ (∀ (neg : Bool) (m : ℕ) (e2 : ℤ),
      pyFloatNonpos (PyFloat.finite neg m e2) = false ↔ 0 < pyFiniteVal neg m e2)
  ∧ pyFloatNonpos PyFloat.nan = false
  ∧ pyFloatNonpos (PyFloat.inf false) = false
  ∧ pyFloatNonpos (PyFloat.inf true) = true := by
  refine ⟨?_, ?_, pyFloatNonpos_finite_iff, rfl, rfl, rfl⟩
  · rcases hp : pyFloatParse s with - | f
    · constructor
      · intro h
        simp [set_partner_amount, hp] at h
      · rintro ⟨f2, hf2, -⟩
        exact absurd hf2 (by simp)
    · cases hnp : pyFloatNonpos f
      · constructor
        · intro _
          exact ⟨f, rfl, hnp⟩
        · intro _
          simp [set_partner_amount, hp, hnp]
      · constructor
        · intro h
          simp [set_partner_amount, hp, hnp] at h
        · rintro ⟨f2, hf2, hok⟩
          rw [Option.some.injEq] at hf2
          subst hf2
          rw [hnp] at hok
          exact absurd hok (by simp)
  · intro hno
    rcases hp : pyFloatParse s with - | f
    · simp [set_partner_amount, hp]
    · cases hnp : pyFloatNonpos f
      · exact absurd ⟨f, hp, hnp⟩ hno
      · simp [set_partner_amount, hp, hnp]

/-- C3 amended witness: the theorem applied at the rejected input `"abc"`
and the accepted input `"100.00"` (whose binary64 value is
`7036874417766400 * 2 ^ (-46) = 100`). -/
theorem c3_amount_float_validation_witness :
    set_partner_amount [] "abc" =
      ⟨[], [⟨["invalid_input", "prompt_amount"], []⟩], BotState.PARTNER_AMOUNT⟩ ∧
    (set_partner_amount [] "100.00").next = BotState.PARTNER_PAYMENT_PROOF := by
  constructor
  · refine (c3_amount_float_validation "abc" []).2.1 ?_
    rintro ⟨f, hf, -⟩
    rw [show pyFloatParse "abc" = none from by decide] at hf
    exact absurd hf (by simp)
  · exact (c3_amount_float_validation "100.00" []).1.mpr
      ⟨PyFloat.finite false 7036874417766400 (-46), by decide, by decide⟩

/-- C6 counterexample: a whitespace-only input (blank after trimming) in a
free-text collection state is not rejected: `" "` is stored unchanged under
the step's key, the state advances to the next step with its prompt, and no
invalid-input notice is emitted — contradicting the claim that blank input is
rejected with the state unchanged and no field stored. -/
theorem c6_blank_text_counterexample :
    pyStrip " " = "" ∧
    (set_member_name [] " ").fields = [("member_name", " ")] ∧
    (set_member_name [] " ").next = BotState.MEMBER_PHONE ∧
    (set_member_name [] " ").next ≠ BotState.MEMBER_NAME ∧
    (set_member_name [] " ").replies = [⟨["prompt_phone"], []⟩] :=
  ⟨by decide, by decide, by decide, by decide, by decide⟩

/-- C6 amended: every non-empty text input in a free-text collection state —
including whitespace-only input that is blank after trimming — is stored
unchanged under the step's key and the flow advances with the next prompt;
`ask_input` performs no trimming or emptiness check. -/
theorem c6_free_text_always_stored (fields : Fields) (t : String) (h : t ≠ "") :
    (set_member_name fields t).fields = dictSet fields "member_name" t ∧
    (set_member_name fields t).next = BotState.MEMBER_PHONE ∧
    (set_member_name fields t).replies = [⟨["prompt_phone"], []⟩] ∧
    (set_prayer_name fields t).fields = dictSet fields "prayer_name" t ∧
    (set_prayer_name fields t).next = BotState.PRAYER_INPUT := by
  simp [set_member_name, set_prayer_name, ask_input, h]

/-- C6 amended witness: the theorem applied at the whitespace-only input. -/
theorem c6_free_text_always_stored_witness :
    ((" " : String) ≠ "") ∧ (set_member_name [] " ").next = BotState.MEMBER_PHONE :=
  ⟨by decide, (c6_free_text_always_stored [] " " (by decide)).2.1⟩

/-- C7 counterexample: the member flow's country step stores and commits the
raw input, not the title-case normalization of the trimmed input: `"south
africa"` is committed verbatim although its normalization is
`"South Africa"`. -/
theorem c7_member_country_counterexample :
    (set_member_country [] "south africa" "7" "2024-01-01 00:00:00" true).appended =
      [["7", "", "", "south africa", "2024-01-01 00:00:00"]] ∧
    pyTitle (pyStrip "south africa") = "South Africa" ∧
    ("south africa" : String) ≠ "South Africa" :=
  ⟨by decide, by decide, by decide⟩

/-- C7 amended: only the partner flow's country step stores the title-case
normalization of the trimmed input; the member, school and master-class
country steps commit the raw input unchanged. -/
theorem c7_country_normalization_partner_only (fields : Fields) (t uid ts : String) :
    (set_partner_details_country fields t).fields.lookup "partner_country" =
      some (pyTitle (pyStrip t)) ∧
    (set_member_country fields t uid ts true).appended =
      [[uid, dictGet fields "member_name" "", dictGet fields "member_phone" "", t, ts]] ∧
    (set_school_country fields t uid ts true).appended =
      [[uid, dictGet fields "school_name" "", dictGet fields "school_phone" "", t, ts]] ∧
    (set_master_country fields t uid ts true).appended =
      [[uid, dictGet fields "master_name" "", dictGet fields "master_phone" "", t, ts]] := by
  refine ⟨?_, ?_, ?_, ?_⟩
  · simp [set_partner_details_country, dictSet_lookup_same]
  · have h1 := dictSet_lookup_other fields "member_country" t "member_name" (by decide)
    have h2 := dictSet_lookup_other fields "member_country" t "member_phone" (by decide)
    have h3 := dictSet_lookup_same fields "member_country" t
    simp [set_member_country, save_to_sheet, dictGet, h1, h2, h3]
  · have h1 := dictSet_lookup_other fields "school_country" t "school_name" (by decide)
    have h2 := dictSet_lookup_other fields "school_country" t "school_phone" (by decide)
    have h3 := dictSet_lookup_same fields "school_country" t
    simp [set_school_country, save_to_sheet, dictGet, h1, h2, h3]
  · have h1 := dictSet_lookup_other fields "master_country" t "master_name" (by decide)
    have h2 := dictSet_lookup_other fields "master_country" t "master_phone" (by decide)
    have h3 := dictSet_lookup_same fields "master_country" t
    simp [set_master_country, save_to_sheet, dictGet, h1, h2, h3]

/-- C8: after the partner country step stores the normalized country, the
engine branches on that value: when it matches the domestic territory (the
lowercased value contains `"south africa"`) it renders the domestic payment
instructions, otherwise the international instructions together with the
Contact Admin affordance; in particular `"South Africa"` yields the domestic
instructions and `"Ghana"` the international ones with the contact button. -/
theorem c8_partner_country_branching (fields : Fields) (t : String) :
    (set_partner_details_country fields t).next = BotState.PARTNER_AMOUNT
  ∧ (pyContains "south africa" (pyLower (pyTitle (pyStrip t))) = true →
      (set_partner_details_country fields t).replies =
        [⟨["payment_sa"], ["BACK_TO_PARTNER_CATEGORIES"]⟩, ⟨["prompt_amount"], []⟩])
  ∧ (pyContains "south africa" (pyLower (pyTitle (pyStrip t))) = false →
      (set_partner_details_country fields t).replies =
        [⟨["payment_international"], ["CONTACT_ADMIN", "BACK_TO_PARTNER_CATEGORIES"]⟩,
          ⟨["prompt_amount"], []⟩])
  ∧ (set_partner_details_country fields "South Africa").replies =
      [⟨["payment_sa"], ["BACK_TO_PARTNER_CATEGORIES"]⟩, ⟨["prompt_amount"], []⟩]
  ∧ (set_partner_details_country fields "Ghana").replies =
      [⟨["payment_international"], ["CONTACT_ADMIN", "BACK_TO_PARTNER_CATEGORIES"]⟩,
        ⟨["prompt_amount"], []⟩] := by
  refine ⟨rfl, ?_, ?_, ?_, ?_⟩
  · intro h
    simp [set_partner_details_country, h]
  · intro h
    simp [set_partner_details_country, h]
  · simp [set_partner_details_country,
      show pyContains "south africa" (pyLower (pyTitle (pyStrip "South Africa"))) = true
        from by decide]
  · simp [set_partner_details_country,
      show pyContains "south africa" (pyLower (pyTitle (pyStrip "Ghana"))) = false
        from by decide]

/-- C8 witness: the theorem applied at `"South Africa"` (domestic branch) and
`"Ghana"` (international branch). -/
theorem c8_partner_country_branching_witness :
    (set_partner_details_country [] "South Africa").replies =
      [⟨["payment_sa"], ["BACK_TO_PARTNER_CATEGORIES"]⟩, ⟨["prompt_amount"], []⟩] ∧
    (set_partner_details_country [] "Ghana").replies =
      [⟨["payment_international"], ["CONTACT_ADMIN", "BACK_TO_PARTNER_CATEGORIES"]⟩,
        ⟨["prompt_amount"], []⟩] :=
  ⟨(c8_partner_country_branching [] "South Africa").2.1 (by decide),
   (c8_partner_country_branching [] "Ghana").2.2.1 (by decide)⟩

/-- C10 counterexample: the prayer flow's commit substitutes the placeholder
`"N/A"`, not the empty string, for a declared field key (the prayer name)
that has no collected value in the session. -/
theorem c10_prayer_na_counterexample :
    ([] : Fields).lookup "prayer_name" = none ∧
    (save_prayer_request [] "Pray for my family" "7" "ts" true).appended =
      [["7", "N/A", "Pray for my family", "ts"]] ∧
    ("N/A" : String) ≠ "" :=
  ⟨rfl, by decide, by decide⟩

/-- C10 amended: every `save_to_sheet` commit (member, school, master class,
partner flows) appends a record that begins with the participant identifier
and ends with the timestamp, committing each declared field key with no
collected value as the empty string rather than failing or being skipped;
the prayer flow's commit has the same shape but substitutes `"N/A"` for a
missing name. -/
theorem c10_commit_record_shape (fields : Fields) (uid ts ptext okKey : String)
    (keys : List String) :
    (save_to_sheet fields uid ts keys okKey true).appended =
      [[uid] ++ keys.map (fun k => dictGet fields k "") ++ [ts]] ∧
    ([uid] ++ keys.map (fun k => dictGet fields k "") ++ [ts]).head? = some uid ∧
    ([uid] ++ keys.map (fun k => dictGet fields k "") ++ [ts]).getLast? = some ts ∧
    (∀ k, fields.lookup k = none → dictGet fields k "" = "") ∧
    (save_prayer_request fields ptext uid ts true).appended =
      [[uid, dictGet fields "prayer_name" "N/A", ptext, ts]] := by
  refine ⟨rfl, rfl, getLast?_append_singleton _ _, ?_, rfl⟩
  intro k hk
  simp [dictGet, hk]

/-- C10 amended witness: the theorem applied at the empty session, whose
lookup of any key is `none` and is committed as the empty string. -/
theorem c10_commit_record_shape_witness :
    ([] : Fields).lookup "member_name" = none ∧ dictGet [] "member_name" "" = "" :=
  ⟨rfl, (c10_commit_record_shape [] "7" "ts" "p" "ok" []).2.2.2.1 "member_name" rfl⟩

end ADMBot
